import Mathlib

/-!
Shallow embedding of the per-stream video pipeline of this repository
(`src/vision.py`, `src/routes.py`) and proofs about its specified behaviour.

Modelling conventions:
* Python `queue.Queue` instances are embedded as Lean lists whose head is the
  oldest element (`put` appends at the back, `get` removes the front), with the
  capacity carried as an explicit parameter (`__init__` uses 10 for the frame
  queue and 30 for the result queue).
* Frames are opaque tokens (`Nat`): no claim constrains pixel contents, only
  which frame value flows where.
* Python floats that the claims touch (timestamps, fps, progress percentages)
  are embedded as `Rat`; the progress formula only divides and multiplies, so
  rational arithmetic is exact for it.
* Fallible attribute access is made explicit: `StreamProcessor.__init__` sets
  `self.thread = None` but never sets `self.detection_thread`, so the
  `detection_thread` field is an `Option` whose `none` means "attribute was
  never assigned" (reading it raises `AttributeError`), while `thread` is an
  `Option` whose `none` is the Python value `None`.
-/

namespace RoadVision

/-- Frames are opaque tokens: the claims only track identity of frames, never
pixel contents. -/
abbrev Frame := Nat

/-- The blank 480x640 placeholder returned by `get_latest_frame` when no frame
has ever arrived (`np.zeros` in `vision.py`). -/
def blankFrame : Frame := 0

/-- A detection dict as produced by the detectors in `src/vision.py`:
`{"bbox": [...], "confidence": c, "label": l}`; the analysis worker later adds
a `"type"` key, so `type` starts out `none` (key absent). -/
structure Detection where
  bbox : List Int
  confidence : Rat
  label : String
  type : Option String := none
  deriving DecidableEq

/-- The result dict built by `StreamProcessor._process_detection`:
`{"timestamp": t, "detections": [...], "frame": annotated}`. `frame := none`
models the `"frame"` key being absent (as after the detections route deletes
it from its copy). -/
structure AnalysisResult where
  timestamp : Rat
  detections : List Detection
  frame : Option Frame := none
  deriving DecidableEq

/-- `queue.Queue.full()`: true when the queue size has reached `maxsize`. -/
def qFull (cap : Nat) (q : List α) : Bool := decide (cap ≤ q.length)

/-- `queue.Queue.put(x)` on a non-full queue: enqueue at the back. -/
def qPut (q : List α) (x : α) : List α := q ++ [x]

/-- The queue left behind by `queue.Queue.get()`: the front (oldest) element
is removed. -/
def qGetDrop (q : List α) : List α := q.tail

/-- The frame-queue push of `StreamProcessor._process_stream`
(`src/vision.py` lines 247-249): `if not self.frame_queue.full():
self.frame_queue.put(frame)` — the incoming frame is dropped when full. -/
def framePush (cap : Nat) (q : List Frame) (f : Frame) : List Frame :=
  if qFull cap q then q else qPut q f

/-- The result-queue publish of `StreamProcessor._process_detection`
(`src/vision.py` lines 285-291): `if not self.result_queue.full(): put(r)
else: get(); put(r)` — on full the oldest result is removed, then the new
result is enqueued. -/
def resultPublish (cap : Nat) (q : List AnalysisResult) (r : AnalysisResult) :
    List AnalysisResult :=
  if qFull cap q then qPut (qGetDrop q) r else qPut q r

/-- Folding a sequence of publishes into the result queue. -/
def publishAll (cap : Nat) (q0 : List AnalysisResult) (rs : List AnalysisResult) :
    List AnalysisResult :=
  rs.foldl (resultPublish cap) q0

/-- `StreamProcessor.get_latest_result` (`src/vision.py` lines 324-327):
returns `None` when the result queue is empty, otherwise peeks
`result_queue.queue[-1]` without removing anything. The returned pair is
(value read, queue state after the read). -/
def getLatestResult (q : List AnalysisResult) : Option AnalysisResult × List AnalysisResult :=
  if q.isEmpty then (none, q) else (q.getLast?, q)

/-- State of the capture loop of `StreamProcessor._process_stream` for a local
file with `T` frames (`src/vision.py` lines 217-234): `pos` is the decoder's
next-frame position (`CAP_PROP_POS_FRAMES`), `frame_count` is
`self.frame_count`, and `captured` counts successful reads (frames produced)
so far. -/
structure CaptureState where
  pos : Nat
  frame_count : Nat
  captured : Nat
  deriving DecidableEq

/-- One iteration of the file-source capture loop body: `cap.read()` succeeds
exactly when the position is before the end of the `T`-frame file, in which
case the position advances and `self.frame_count += 1`; on read failure
(end of stream) the loop seeks back to frame 0 (`cap.set(CAP_PROP_POS_FRAMES, 0)`),
resets `self.frame_count = 0` and `continue`s — it never terminates. -/
def captureStep (T : Nat) (s : CaptureState) : CaptureState :=
  if s.pos < T then
    { pos := s.pos + 1, frame_count := s.frame_count + 1, captured := s.captured + 1 }
  else
    { pos := 0, frame_count := 0, captured := s.captured }

/-- Running `n` iterations of the file-source capture loop from the start of
the file with a fresh counter. -/
def captureRun (T : Nat) : Nat → CaptureState
  | 0 => { pos := 0, frame_count := 0, captured := 0 }
  | n + 1 => captureStep T (captureRun T n)

/-- The playback-progress value of `StreamProcessor.get_status`
(`src/vision.py` line 343):
`(self.frame_count / self.total_frames) * 100 if self.total_frames > 0 else 0`. -/
def statusProgress (frame_count total_frames : Nat) : Rat :=
  if 0 < total_frames then ((frame_count : Rat) / (total_frames : Rat)) * 100 else 0

/-- The analysis cycle of `StreamProcessor._process_detection`
(`src/vision.py` lines 262-283) applied to one popped frame: run each enabled
detector, tag each motion detection with `type = "motion"` and each object
detection with `type = "person"` (line 278), appending them in that order to
`results["detections"]`, then attach the annotated frame. The detector
outputs and the annotated frame are parameters: they come from the external
detector capability and the drawing routine, whose contents no claim
constrains. -/
def analysisCycle (motionEnabled objectEnabled : Bool) (ts : Rat)
    (motionDets objectDets : List Detection) (annotated : Frame) : AnalysisResult :=
  let r0 : AnalysisResult := { timestamp := ts, detections := [], frame := none }
  let r1 := if motionEnabled then
      motionDets.foldl
        (fun a d =>
          { a with detections := a.detections ++ [{ d with type := some "motion" }] }) r0
    else r0
  let r2 := if objectEnabled then
      objectDets.foldl
        (fun a d =>
          { a with detections := a.detections ++ [{ d with type := some "person" }] }) r1
    else r1
  { r2 with frame := some annotated }

/-- A `cv2.VideoCapture` handle: `opened` is what `isOpened()` reports,
`released` records that `release()` has been called. -/
structure Capture where
  opened : Bool
  released : Bool := false
  deriving DecidableEq

/-- A worker thread handle; `alive` is what `is_alive()` reports. -/
structure ThreadH where
  alive : Bool
  deriving DecidableEq

/-- Python exceptions the embedded code can raise. -/
inductive PyErr where
  | attributeError (name : String)
  deriving DecidableEq

/-- The mutable state of a `StreamProcessor` (`src/vision.py` lines 137-162).
`thread = none` is the Python value `None` that `__init__` assigns, while
`detection_thread = none` means the attribute was never assigned at all:
`__init__` sets `self.thread = None` but never `self.detection_thread`, which
only `start` assigns after the source opens successfully, so reading it before
then raises `AttributeError`. The display name and pacing clocks
(`video_name`, `start_time`, `last_frame_time`) are omitted: no claim
mentions them. -/
structure Processor where
  stream_id : String
  url : String
  running : Bool
  cap : Option Capture
  thread : Option ThreadH
  detection_thread : Option ThreadH
  latest_frame : Option Frame
  frame_queue : List Frame
  result_queue : List AnalysisResult
  fps : Rat
  is_local_file : Bool
  original_fps : Rat
  frame_count : Nat
  total_frames : Nat
  deriving DecidableEq

/-- `StreamProcessor.__init__`: `is_local_file` is `os.path.isfile(url)`,
passed in because it depends on the filesystem environment. -/
def Processor.init (stream_id url : String) (isFile : Bool) : Processor :=
  { stream_id := stream_id, url := url, running := false, cap := none,
    thread := none, detection_thread := none, latest_frame := none,
    frame_queue := [], result_queue := [], fps := 0, is_local_file := isFile,
    original_fps := 0, frame_count := 0, total_frames := 0 }

/-- `StreamProcessor.start` (`src/vision.py` lines 164-193). `openOk` is
whether `cv2.VideoCapture(self.url).isOpened()` holds, `origFps` and
`totalFrames` are the properties the opened source reports. Returns the
Python return value (`none` models the bare `return` taken when already
running) paired with the updated object. On open failure the method resets
`self.running = False` and returns `False`: neither worker thread is spawned
and `self.detection_thread` is never assigned. -/
def Processor.start (p : Processor) (openOk : Bool) (origFps : Rat)
    (totalFrames : Nat) : Option Bool × Processor :=
  if p.running then (none, p)
  else
    let p1 := { p with running := true,
                       cap := some { opened := openOk, released := false } }
    if openOk then
      let p2 := { p1 with
        original_fps := origFps,
        total_frames := if p1.is_local_file then totalFrames else 0,
        thread := some { alive := true },
        detection_thread := some { alive := true } }
      (some true, p2)
    else
      (some false, { p1 with running := false })

/-- `StreamProcessor.stop` (`src/vision.py` lines 195-203): clears the running
flag, joins `self.thread` when it is alive, then reads
`self.detection_thread` — which raises `AttributeError` when that attribute
was never assigned — joins it, and finally releases the capture handle.
Returns the raised exception (if any) paired with the object's state at that
point. -/
def Processor.stop (p : Processor) : Option PyErr × Processor :=
  let p1 := { p with running := false }
  match p1.detection_thread with
  | none => (some (PyErr.attributeError "detection_thread"), p1)
  | some _ =>
      let p2 := { p1 with
        thread := p1.thread.map (fun _ => { alive := false }),
        detection_thread := some { alive := false },
        cap := p1.cap.map (fun c => { c with released := true }) }
      (none, p2)

/-- `StreamProcessor.get_latest_result` lifted to the processor object. -/
def Processor.get_latest_result (p : Processor) : Option AnalysisResult :=
  (getLatestResult p.result_queue).1

/-- `StreamProcessor.get_latest_frame` (`src/vision.py` lines 318-322):
the latest raw frame or the blank placeholder. -/
def Processor.get_latest_frame (p : Processor) : Frame :=
  match p.latest_frame with
  | none => blankFrame
  | some f => f

/-- The status dict of `StreamProcessor.get_status` (`src/vision.py` lines
329-348); the `progress`, `total_frames` and `current_frame` keys are present
only for local files, hence the `Option`s. The detector-enable flags come
from `self.config`. -/
structure Status where
  id : String
  url : String
  running : Bool
  fps : Rat
  detection_enabled : Bool
  motion_enabled : Bool
  is_local_file : Bool
  progress : Option Rat
  total_frames : Option Nat
  current_frame : Option Nat
  deriving DecidableEq

/-- `StreamProcessor.get_status` (`src/vision.py` lines 329-348). -/
def Processor.get_status (p : Processor) (detectionEnabled motionEnabled : Bool) :
    Status :=
  { id := p.stream_id, url := p.url, running := p.running, fps := p.fps,
    detection_enabled := detectionEnabled, motion_enabled := motionEnabled,
    is_local_file := p.is_local_file,
    progress :=
      if p.is_local_file then some (statusProgress p.frame_count p.total_frames)
      else none,
    total_frames := if p.is_local_file then some p.total_frames else none,
    current_frame := if p.is_local_file then some p.frame_count else none }

/-- Python dict access `streams[sid]` / membership `sid in streams` on the
registry, embedded as an association list keyed by stream id. -/
def dictGet {β : Type} (streams : List (String × β)) (sid : String) : Option β :=
  match streams with
  | [] => none
  | (k, v) :: t => if sid = k then some v else dictGet t sid

/-- Outcome of the `POST /api/streams` handler. -/
inductive CreateOutcome where
  | missingUrl
  | alreadyExists (id : String)
  | sourceUnavailable (url : String)
  | typeErrorRaised
  | created (id : String)
  deriving DecidableEq

/-- The `add_stream` handler (`src/routes.py` lines 24-52). The stream id
defaults to the current epoch second rendered as a string (`now`). After the
duplicate-id check, line 39 executes
`StreamProcessor(stream_id, url, CONFIG, object_detector)` — four positional
arguments — but `vision.StreamProcessor.__init__` (`src/vision.py` line 138)
accepts only `(self, stream_id, url, config)`, so the constructor call raises
`TypeError` before any source is opened; lines 42-52 (the
`Failed to start stream` response, the registry insertion and the success
response) are unreachable, which is why `sourceUnavailable` and `created` are
never produced. The `streams` dict is left untouched in every branch that the
handler can actually reach. -/
def add_stream (streams : List (String × Processor)) (reqId : Option String)
    (now : String) (reqUrl : Option String) :
    CreateOutcome × List (String × Processor) :=
  match reqUrl with
  | none => (CreateOutcome.missingUrl, streams)
  | some _ =>
    let sid := match reqId with
      | some i => i
      | none => now
    if (dictGet streams sid).isSome then
      (CreateOutcome.alreadyExists sid, streams)
    else
      (CreateOutcome.typeErrorRaised, streams)

/-- Response body of `GET /api/streams/<id>/detections`. -/
inductive DetectionsResponse where
  | notFound (id : String)
  | emptyDetections
  | payload (r : AnalysisResult)
  deriving DecidableEq

/-- The `get_stream_detections` handler (`src/routes.py` lines 80-95): look up
the processor, peek its latest result, and strip the `"frame"` key from a
shallow copy (`result_copy = result.copy()` then `del result_copy["frame"]`) —
the cached result object itself keeps its frame. Returns the HTTP payload
paired with the registry state after the call. -/
def get_stream_detections (streams : List (String × Processor)) (sid : String) :
    DetectionsResponse × List (String × Processor) :=
  match dictGet streams sid with
  | none => (DetectionsResponse.notFound sid, streams)
  | some p =>
    match p.get_latest_result with
    | none => (DetectionsResponse.emptyDetections, streams)
    | some r => (DetectionsResponse.payload { r with frame := none }, streams)

/-- The frame encoded by the `get_stream_snapshot` handler (`src/routes.py`
lines 97-116): the latest result's annotated frame, falling back to the
latest raw frame (or the blank placeholder); `none` is the 404 case. -/
def get_stream_snapshot (streams : List (String × Processor)) (sid : String) :
    Option Frame :=
  match dictGet streams sid with
  | none => none
  | some p =>
    match p.get_latest_result with
    | none => some p.get_latest_frame
    | some r =>
      match r.frame with
      | none => some p.get_latest_frame
      | some f => some f

/-- A sample untagged object detection, as `YOLODetector.detect` returns it. -/
def sampleObjDet : Detection :=
  { bbox := [0, 0, 10, 10], confidence := 1, label := "person" }

/-- A sample analysis result carrying an annotated frame, for concrete
witnesses. -/
def sampleResult : AnalysisResult :=
  { timestamp := 5, detections := [{ sampleObjDet with type := some "person" }],
    frame := some 7 }

/-- A concrete running file-backed processor with one published result. -/
def sampleProc : Processor :=
  { Processor.init "s1" "videos/demo.mp4" true with
      running := true, latest_frame := some 3, result_queue := [sampleResult],
      frame_count := 2, total_frames := 5 }

end RoadVision

namespace RoadVision

theorem qFull_iff {α : Type} (cap : Nat) (q : List α) :
    qFull cap q = true ↔ cap ≤ q.length := by
  simp [qFull]

theorem resultPublish_ne_nil (cap : Nat) (q : List AnalysisResult) (r : AnalysisResult) :
    resultPublish cap q r ≠ [] := by
  unfold resultPublish qPut qGetDrop
  split <;> simp

theorem resultPublish_getLast (cap : Nat) (q : List AnalysisResult) (r : AnalysisResult) :
    (resultPublish cap q r).getLast? = some r := by
  unfold resultPublish qPut qGetDrop
  split <;> simp

/-- **C1.** For any result queue respecting its capacity bound (default 30,
`0 < cap`), a publish by the analysis worker keeps the length within the
capacity; when the queue is full the publish is exactly "remove the oldest,
then enqueue the new result"; and in every case the new result ends up as the
newest (back) element — it is never rejected. -/
theorem resultQueue_publish_policy (cap : Nat) (hcap : 0 < cap)
    (q : List AnalysisResult) (r : AnalysisResult) (hq : q.length ≤ cap) :
    (resultPublish cap q r).length ≤ cap ∧
    (qFull cap q = true → resultPublish cap q r = qPut (qGetDrop q) r) ∧
    (resultPublish cap q r).getLast? = some r := by
  refine ⟨?_, ?_, resultPublish_getLast cap q r⟩
  · unfold resultPublish qPut qGetDrop
    by_cases h : qFull cap q = true
    · rw [if_pos h]
      have hlen : cap ≤ q.length := (qFull_iff cap q).mp h
      have hq_eq : q.length = cap := le_antisymm hq hlen
      have hqpos : 0 < q.length := by omega
      have : q.tail.length = q.length - 1 := List.length_tail q
      simp only [List.length_append, List.length_singleton]
      omega
    · rw [if_neg h]
      have : ¬ cap ≤ q.length := fun hc => h ((qFull_iff cap q).mpr hc)
      simp only [List.length_append, List.length_singleton]
      omega
  · intro h
    unfold resultPublish
    rw [if_pos h]

/-- Witness for `resultQueue_publish_policy` at the default capacity 30 with a
concrete one-element queue. -/
theorem resultQueue_publish_policy_witness :
    (0 < 30 ∧ ([({ timestamp := 1, detections := [] } : AnalysisResult)]).length ≤ 30) ∧
    ((resultPublish 30 [({ timestamp := 1, detections := [] } : AnalysisResult)]
        { timestamp := 2, detections := [] }).length ≤ 30 ∧
     (qFull 30 [({ timestamp := 1, detections := [] } : AnalysisResult)] = true →
        resultPublish 30 [({ timestamp := 1, detections := [] } : AnalysisResult)]
          { timestamp := 2, detections := [] }
          = qPut (qGetDrop [({ timestamp := 1, detections := [] } : AnalysisResult)])
              { timestamp := 2, detections := [] }) ∧
     (resultPublish 30 [({ timestamp := 1, detections := [] } : AnalysisResult)]
        { timestamp := 2, detections := [] }).getLast?
        = some { timestamp := 2, detections := [] }) :=
  ⟨⟨by decide, by decide⟩,
    resultQueue_publish_policy 30 (by decide) _ _ (by decide)⟩

/-- **C2.** For any frame queue respecting its capacity bound (default 10),
the capture worker's push keeps the length within capacity; when the queue is
full the push leaves the queue exactly unchanged (every queued frame is
preserved, the incoming newest frame is dropped); when not full it is a plain
non-blocking enqueue (`put` is only ever invoked on a non-full queue, so the
capture worker never blocks). -/
theorem frameQueue_push_policy (cap : Nat) (q : List Frame) (f : Frame)
    (hq : q.length ≤ cap) :
    (framePush cap q f).length ≤ cap ∧
    (qFull cap q = true → framePush cap q f = q) ∧
    (qFull cap q = false → framePush cap q f = qPut q f) := by
  refine ⟨?_, ?_, ?_⟩
  · unfold framePush qPut
    by_cases h : qFull cap q = true
    · rw [if_pos h]; exact hq
    · rw [if_neg h]
      have : ¬ cap ≤ q.length := fun hc => h ((qFull_iff cap q).mpr hc)
      simp only [List.length_append, List.length_singleton]
      omega
  · intro h; unfold framePush; rw [if_pos h]
  · intro h; unfold framePush; rw [if_neg (by simp [h])]

/-- Witness for `frameQueue_push_policy` at the default capacity 10 with a
concrete full queue: the push drops the incoming frame. -/
theorem frameQueue_push_policy_witness :
    (([0, 1, 2, 3, 4, 5, 6, 7, 8, 9] : List Frame).length ≤ 10) ∧
    ((framePush 10 [0, 1, 2, 3, 4, 5, 6, 7, 8, 9] 10).length ≤ 10 ∧
     (qFull 10 ([0, 1, 2, 3, 4, 5, 6, 7, 8, 9] : List Frame) = true →
        framePush 10 [0, 1, 2, 3, 4, 5, 6, 7, 8, 9] 10 = [0, 1, 2, 3, 4, 5, 6, 7, 8, 9]) ∧
     (qFull 10 ([0, 1, 2, 3, 4, 5, 6, 7, 8, 9] : List Frame) = false →
        framePush 10 [0, 1, 2, 3, 4, 5, 6, 7, 8, 9] 10
          = qPut [0, 1, 2, 3, 4, 5, 6, 7, 8, 9] 10)) :=
  ⟨by decide, frameQueue_push_policy 10 _ 10 (by decide)⟩

theorem getLatestResult_of_ne_nil {q : List AnalysisResult} (h : q ≠ []) :
    getLatestResult q = (q.getLast?, q) := by
  unfold getLatestResult
  simp [h]

theorem getLatestResult_state (q : List AnalysisResult) :
    (getLatestResult q).2 = q := by
  unfold getLatestResult
  split <;> rfl

theorem publishAll_concat (cap : Nat) (q0 : List AnalysisResult)
    (l : List AnalysisResult) (r : AnalysisResult) :
    publishAll cap q0 (l ++ [r]) = resultPublish cap (publishAll cap q0 l) r := by
  unfold publishAll
  rw [List.foldl_append]
  rfl

/-- **C3.** After any non-empty sequence of publishes into the result queue, a
latest-state read (`get_latest_result`) returns the most recent published
result; the read leaves the queue unchanged, so repeated reads with no
intervening publish return the same value and never remove anything. -/
theorem latestRead_after_publishes (cap : Nat) (q0 : List AnalysisResult)
    (rs : List AnalysisResult) (h : rs ≠ []) :
    (getLatestResult (publishAll cap q0 rs)).1 = rs.getLast? ∧
    (getLatestResult (publishAll cap q0 rs)).2 = publishAll cap q0 rs ∧
    getLatestResult ((getLatestResult (publishAll cap q0 rs)).2)
      = getLatestResult (publishAll cap q0 rs) := by
  refine ⟨?_, getLatestResult_state _, ?_⟩
  · rcases List.eq_nil_or_concat rs with hnil | ⟨l, r, rfl⟩
    · exact absurd hnil h
    · rw [List.concat_eq_append]
      rw [publishAll_concat]
      rw [getLatestResult_of_ne_nil (resultPublish_ne_nil cap (publishAll cap q0 l) r)]
      rw [resultPublish_getLast]
      simp [List.getLast?_concat]
  · rw [getLatestResult_state]

/-- Witness for `latestRead_after_publishes`: two concrete publishes into an
empty queue of capacity 30; the read returns the second result and preserves
the queue. -/
theorem latestRead_after_publishes_witness :
    (([({ timestamp := 1, detections := [] } : AnalysisResult),
       { timestamp := 2, detections := [] }] : List AnalysisResult) ≠ []) ∧
    ((getLatestResult (publishAll 30 []
        [({ timestamp := 1, detections := [] } : AnalysisResult),
         { timestamp := 2, detections := [] }])).1
      = ([({ timestamp := 1, detections := [] } : AnalysisResult),
          { timestamp := 2, detections := [] }]).getLast? ∧
     (getLatestResult (publishAll 30 []
        [({ timestamp := 1, detections := [] } : AnalysisResult),
         { timestamp := 2, detections := [] }])).2
      = publishAll 30 []
          [({ timestamp := 1, detections := [] } : AnalysisResult),
           { timestamp := 2, detections := [] }] ∧
     getLatestResult ((getLatestResult (publishAll 30 []
        [({ timestamp := 1, detections := [] } : AnalysisResult),
         { timestamp := 2, detections := [] }])).2)
      = getLatestResult (publishAll 30 []
          [({ timestamp := 1, detections := [] } : AnalysisResult),
           { timestamp := 2, detections := [] }])) :=
  ⟨by decide, latestRead_after_publishes 30 [] _ (by decide)⟩

theorem captureRun_of_le (T : Nat) :
    ∀ k, k ≤ T → captureRun T k = { pos := k, frame_count := k, captured := k } := by
  intro k
  induction k with
  | zero => intro _; rfl
  | succ n ih =>
    intro hk
    have hn : n ≤ T := Nat.le_of_succ_le hk
    have hlt : n < T := hk
    show captureStep T (captureRun T n) = _
    rw [ih hn]
    unfold captureStep
    simp [hlt]

/-- **C6.** For a file source with `T ≥ 1` frames: after `T` loop iterations
the worker has captured `T` frames and the frame index is `T`; the next
iteration hits end-of-stream, seeks back to frame 0 and resets the counter to
0 while capturing nothing (the loop continues rather than terminating); the
iteration after that captures the `(T+1)`-th frame, leaving the frame index at
1; and at the reset point progress is recomputed from 0%. -/
theorem file_loop_reset (T : Nat) (hT : 0 < T) :
    captureRun T T = { pos := T, frame_count := T, captured := T } ∧
    captureRun T (T + 1) = { pos := 0, frame_count := 0, captured := T } ∧
    captureRun T (T + 2) = { pos := 1, frame_count := 1, captured := T + 1 } ∧
    statusProgress (captureRun T (T + 1)).frame_count T = 0 := by
  have hT1 : captureRun T T = { pos := T, frame_count := T, captured := T } :=
    captureRun_of_le T T le_rfl
  have hT2 : captureRun T (T + 1) = { pos := 0, frame_count := 0, captured := T } := by
    show captureStep T (captureRun T T) = _
    rw [hT1]
    unfold captureStep
    simp
  have hT3 : captureRun T (T + 2) = { pos := 1, frame_count := 1, captured := T + 1 } := by
    show captureStep T (captureRun T (T + 1)) = _
    rw [hT2]
    unfold captureStep
    simp [hT]
  refine ⟨hT1, hT2, hT3, ?_⟩
  rw [hT2]
  unfold statusProgress
  simp

/-- Witness for `file_loop_reset` at a concrete 3-frame file. -/
theorem file_loop_reset_witness :
    0 < 3 ∧
    (captureRun 3 3 = { pos := 3, frame_count := 3, captured := 3 } ∧
     captureRun 3 (3 + 1) = { pos := 0, frame_count := 0, captured := 3 } ∧
     captureRun 3 (3 + 2) = { pos := 1, frame_count := 1, captured := 3 + 1 } ∧
     statusProgress (captureRun 3 (3 + 1)).frame_count 3 = 0) :=
  ⟨by decide, file_loop_reset 3 (by decide)⟩

theorem foldl_tag (tag : String) (a : AnalysisResult) (ds : List Detection) :
    ds.foldl
      (fun a d => { a with detections := a.detections ++ [{ d with type := some tag }] }) a
      = { a with detections :=
            a.detections ++ ds.map (fun d => { d with type := some tag }) } := by
  induction ds generalizing a with
  | nil => simp
  | cons d t ih =>
    rw [List.foldl_cons, ih]
    simp

/-- **C7 counterexample.** With both detectors enabled and the object detector
returning one detection, the analysis cycle tags that detection with category
`"person"`, not `"object"` as the claim states (`src/vision.py` line 278:
`detection["type"] = "person"`). -/
theorem analysis_category_cx :
    (analysisCycle true true 0 [] [sampleObjDet] 0).detections
      = [{ sampleObjDet with type := some "person" }] ∧
    ({ sampleObjDet with type := some "person" } : Detection).type ≠ some "object" := by
  exact ⟨rfl, by decide⟩

/-- **C7 amended.** With both detectors enabled, the analysis cycle's
detections list is exactly the motion detections followed by the object
detections (motion first, in insertion order), each tagged with its category —
where the category recorded is `"motion"` for motion detections and `"person"`
(not `"object"`) for object detections. -/
theorem analysis_detections_order (ts : Rat) (ms os : List Detection) (af : Frame) :
    (analysisCycle true true ts ms os af).detections
      = ms.map (fun d => { d with type := some "motion" })
        ++ os.map (fun d => { d with type := some "person" }) := by
  unfold analysisCycle
  simp only [if_true]
  rw [foldl_tag, foldl_tag]
  simp

/-- **C8.** For a file-backed processor, the reported playback progress equals
`current_frame / total_frames * 100` whenever `total_frames > 0` — and the
divisor is then nonzero, so the guarded division never divides by zero — and
equals `0` when `total_frames` is `0` (unknown). -/
theorem status_progress_formula (p : Processor) (de me : Bool)
    (hfile : p.is_local_file = true) :
    (p.get_status de me).progress
      = some (statusProgress p.frame_count p.total_frames) ∧
    (0 < p.total_frames →
      statusProgress p.frame_count p.total_frames
        = ((p.frame_count : Rat) / (p.total_frames : Rat)) * 100 ∧
      ((p.total_frames : Rat) ≠ 0)) ∧
    (p.total_frames = 0 → statusProgress p.frame_count p.total_frames = 0) := by
  refine ⟨?_, ?_, ?_⟩
  · unfold Processor.get_status
    simp [hfile]
  · intro h
    refine ⟨?_, ?_⟩
    · unfold statusProgress
      rw [if_pos h]
    · exact_mod_cast Nat.pos_iff_ne_zero.mp h
  · intro h
    unfold statusProgress
    simp [h]

/-- Witness for `status_progress_formula` on a concrete processor with
`frame_count = 2` and `total_frames = 5`. -/
theorem status_progress_formula_witness :
    sampleProc.is_local_file = true ∧
    ((sampleProc.get_status true true).progress
        = some (statusProgress sampleProc.frame_count sampleProc.total_frames) ∧
     (0 < sampleProc.total_frames →
       statusProgress sampleProc.frame_count sampleProc.total_frames
         = ((sampleProc.frame_count : Rat) / (sampleProc.total_frames : Rat)) * 100 ∧
       ((sampleProc.total_frames : Rat) ≠ 0)) ∧
     (sampleProc.total_frames = 0 →
       statusProgress sampleProc.frame_count sampleProc.total_frames = 0)) :=
  ⟨rfl, status_progress_formula sampleProc true true rfl⟩

/-- **C4 (code bug).** A `POST /api/streams` call with a fresh id and a source
that cannot be opened does not return `SourceUnavailable`: the handler raises
`TypeError` at the `StreamProcessor(stream_id, url, CONFIG, object_detector)`
constructor call (`src/routes.py` line 39 passes four positional arguments,
`vision.StreamProcessor.__init__` takes three), before the source is ever
opened or `start` is called; no registry entry is added. -/
theorem create_raises_typeError :
    add_stream [] (some "s1") "1700000000" (some "missing.mp4")
      = (CreateOutcome.typeErrorRaised, []) ∧
    CreateOutcome.typeErrorRaised ≠ CreateOutcome.sourceUnavailable "missing.mp4" := by
  exact ⟨rfl, by decide⟩

/-- **C5 (code bug).** `stop()` on a pipeline whose `start()` returned `False`
(source failed to open) is not a no-op: because `__init__` never assigns
`self.detection_thread` and the failed `start` returns before assigning it,
`stop` raises `AttributeError` at `if self.detection_thread and ...`
(`src/vision.py` line 199) instead of completing silently. -/
theorem stop_after_failed_start_raises :
    ((Processor.init "s1" "missing.mp4" true).start false 0 0).1 = some false ∧
    (Processor.stop ((Processor.init "s1" "missing.mp4" true).start false 0 0).2).1
      = some (PyErr.attributeError "detection_thread") :=
  ⟨rfl, rfl⟩

theorem filter_key_eq_nil {β : Type} (t : List (String × β)) (a : String)
    (h : a ∉ t.map Prod.fst) : t.filter (fun e => e.1 = a) = [] := by
  induction t with
  | nil => rfl
  | cons x t ih =>
    simp only [List.map_cons, List.mem_cons, not_or] at h
    have hx : ¬ (x.1 = a) := fun hh => h.1 hh.symm
    simp [List.filter_cons, hx, ih h.2]

theorem dictGet_some_filter_length {β : Type} (l : List (String × β)) (a : String)
    (b : β) (h : dictGet l a = some b) (hnd : (l.map Prod.fst).Nodup) :
    (l.filter (fun e => e.1 = a)).length = 1 := by
  induction l with
  | nil => simp [dictGet] at h
  | cons x t ih =>
    obtain ⟨k, v⟩ := x
    simp only [List.map_cons, List.nodup_cons] at hnd
    by_cases hak : a = k
    · have hnot : a ∉ t.map Prod.fst := hak ▸ hnd.1
      rw [List.filter_cons]
      rw [if_pos (by simp [hak.symm])]
      simp [filter_key_eq_nil t a hnot]
    · have h' : dictGet t a = some b := by
        simpa [dictGet, hak] using h
      have hka : ¬ k = a := fun hh => hak hh.symm
      rw [List.filter_cons]
      rw [if_neg (by simpa using hka)]
      exact ih h' hnd.2

/-- **C9.** A Create call whose explicit id collides with a live registry
entry returns `AlreadyExists` before any `StreamProcessor` is constructed or
started, leaves the registry unchanged, and the registry afterwards still
holds exactly one entry for that id — the original, unchanged. -/
theorem create_collision (streams : List (String × Processor))
    (sid url now : String) (p : Processor)
    (hlive : dictGet streams sid = some p)
    (hkeys : (streams.map Prod.fst).Nodup) :
    (add_stream streams (some sid) now (some url)).1
      = CreateOutcome.alreadyExists sid ∧
    (add_stream streams (some sid) now (some url)).2 = streams ∧
    ((add_stream streams (some sid) now (some url)).2.filter
        (fun e => e.1 = sid)).length = 1 ∧
    dictGet (add_stream streams (some sid) now (some url)).2 sid = some p := by
  have hadd : add_stream streams (some sid) now (some url)
      = (CreateOutcome.alreadyExists sid, streams) := by
    unfold add_stream
    simp [hlive]
  rw [hadd]
  exact ⟨rfl, rfl, dictGet_some_filter_length streams sid p hlive hkeys, hlive⟩

/-- Witness for `create_collision` on a one-entry registry. -/
theorem create_collision_witness :
    (dictGet [("s1", sampleProc)] "s1" = some sampleProc ∧
     (([("s1", sampleProc)] : List (String × Processor)).map Prod.fst).Nodup) ∧
    ((add_stream [("s1", sampleProc)] (some "s1") "99" (some "u.mp4")).1
        = CreateOutcome.alreadyExists "s1" ∧
     (add_stream [("s1", sampleProc)] (some "s1") "99" (some "u.mp4")).2
        = [("s1", sampleProc)] ∧
     ((add_stream [("s1", sampleProc)] (some "s1") "99" (some "u.mp4")).2.filter
        (fun e => e.1 = "s1")).length = 1 ∧
     dictGet (add_stream [("s1", sampleProc)] (some "s1") "99" (some "u.mp4")).2 "s1"
        = some sampleProc) :=
  ⟨⟨by decide, by decide⟩,
    create_collision [("s1", sampleProc)] "s1" "u.mp4" "99" sampleProc
      (by decide) (by decide)⟩

/-- **C10.** The latest-detections endpoint strips the frame only from a
shallow copy: the HTTP payload is the latest result without its frame, the
registry is unchanged by the call, the pipeline's cached latest result still
carries its annotated frame afterwards, and a subsequent snapshot read of the
same stream still serves that annotated frame. -/
theorem detections_read_preserves_frame (streams : List (String × Processor))
    (sid : String) (p : Processor) (r : AnalysisResult) (f : Frame)
    (hp : dictGet streams sid = some p)
    (hr : p.get_latest_result = some r)
    (hf : r.frame = some f) :
    (get_stream_detections streams sid).1
      = DetectionsResponse.payload { r with frame := none } ∧
    (get_stream_detections streams sid).2 = streams ∧
    ((dictGet (get_stream_detections streams sid).2 sid).bind
        (fun q => (q.get_latest_result).bind (fun s => s.frame))) = some f ∧
    get_stream_snapshot (get_stream_detections streams sid).2 sid = some f := by
  have hds : get_stream_detections streams sid
      = (DetectionsResponse.payload { r with frame := none }, streams) := by
    simp [get_stream_detections, hp, hr]
  rw [hds]
  refine ⟨rfl, rfl, ?_, ?_⟩
  · simp [hp, hr, hf]
  · simp [get_stream_snapshot, hp, hr, hf]

/-- Witness for `detections_read_preserves_frame` on a registry holding one
processor whose latest result carries annotated frame `7`. -/
theorem detections_read_preserves_frame_witness :
    (dictGet [("s1", sampleProc)] "s1" = some sampleProc ∧
     sampleProc.get_latest_result = some sampleResult ∧
     sampleResult.frame = some 7) ∧
    ((get_stream_detections [("s1", sampleProc)] "s1").1
        = DetectionsResponse.payload { sampleResult with frame := none } ∧
     (get_stream_detections [("s1", sampleProc)] "s1").2 = [("s1", sampleProc)] ∧
     ((dictGet (get_stream_detections [("s1", sampleProc)] "s1").2 "s1").bind
        (fun q => (q.get_latest_result).bind (fun s => s.frame))) = some 7 ∧
     get_stream_snapshot (get_stream_detections [("s1", sampleProc)] "s1").2 "s1"
        = some 7) :=
  ⟨⟨by decide, by decide, by decide⟩,
    detections_read_preserves_frame [("s1", sampleProc)] "s1" sampleProc sampleResult 7
      (by decide) (by decide) (by decide)⟩

end RoadVision
